import Mathlib

/-!
A shallow embedding of `src/macos_dateadded.py`: a utility that reads and
writes the macOS "date added" extended attribute via `getattrlist` /
`setattrlist`.  ctypes integer types are modelled as `Nat`/`Int` with the
wrap-around the ctypes layer performs made explicit; the kernel boundary
(the two libc entry points) is a parameter of the operations, modelled as a
state-passing function pair; Python exceptions become an `Except` result.
-/

namespace MacosDateAdded

/-- `ATTR_BIT_MAP_COUNT = 5` (sys/attr.h). -/
def ATTR_BIT_MAP_COUNT : Nat := 5

/-- `ATTR_CMN_RETURNED_ATTRS = 0x80000000`. -/
def ATTR_CMN_RETURNED_ATTRS : Nat := 0x80000000

/-- `ATTR_CMN_ADDEDTIME = 0x10000000`. -/
def ATTR_CMN_ADDEDTIME : Nat := 0x10000000

/-- `FSOPT_NOFOLLOW = 0x00000001`. -/
def FSOPT_NOFOLLOW : Nat := 0x00000001

/-- ctypes assignment into a 64-bit signed field (`c_long` on macOS, hence
also `c_time_t`) silently wraps the Python int modulo 2^64 into the signed
range: this is that wrap. -/
def wrap64 (i : Int) : Int :=
  let m := i % (2 ^ 64 : Int)
  if m < 2 ^ 63 then m else m - 2 ^ 64

/-- ctypes assignment into a 32-bit unsigned field (`c_uint32`, hence
`attrgroup_t`) wraps modulo 2^32. -/
def wrap32 (n : Nat) : Nat := n % 2 ^ 32

/-- `attribute_set`: five `attrgroup_t` (32-bit) group masks. -/
structure attribute_set where
  commonattr : Nat
  volattr : Nat
  dirattr : Nat
  fileattr : Nat
  forkattr : Nat
  deriving Repr, DecidableEq

/-- `attrlist`: `c_ushort bitmapcount`, `c_uint16 reserved`, and the
anonymous `attribute_set` field `a`. -/
structure attrlist where
  bitmapcount : Nat
  reserved : Nat
  a : attribute_set
  deriving Repr, DecidableEq

/-- `attrlist.__init__`: keyword group masks (each defaulting to 0 at call
sites that omit them), `bitmapcount` forced to `ATTR_BIT_MAP_COUNT`,
`reserved` forced to 0; every 32-bit field wraps as ctypes does. -/
def attrlist.init (commonattr volattr dirattr fileattr forkattr : Nat) : attrlist :=
  { bitmapcount := ATTR_BIT_MAP_COUNT % 2 ^ 16
    reserved := 0
    a := { commonattr := wrap32 commonattr, volattr := wrap32 volattr
           dirattr := wrap32 dirattr, fileattr := wrap32 fileattr
           forkattr := wrap32 forkattr } }

/-- `timespec`: `c_time_t tv_sec`, `c_long tv_nsec` (both 64-bit signed). -/
structure timespec where
  tv_sec : Int
  tv_nsec : Int
  deriving Repr, DecidableEq

/-- `timespec.__init__` with its defaults `tv_sec = 0, tv_nsec = 0`;
ctypes wraps both fields into the signed 64-bit range. -/
def timespec.init (tv_sec tv_nsec : Int) : timespec :=
  { tv_sec := wrap64 tv_sec, tv_nsec := wrap64 tv_nsec }

/-- `dateaddedResponse`: `c_uint32 length`, echoed `attribute_set
returned`, then the `timespec dateadded` payload immediately after. -/
structure dateaddedResponse where
  length : Nat
  returned : attribute_set
  dateadded : timespec
  deriving Repr, DecidableEq

/-- `sizeof(timespec)` on arm64/x86-64 macOS: two 8-byte words. -/
def sizeof_timespec : Nat := 16

/-- `sizeof(dateaddedResponse)`: 4 (length) + 20 (attribute_set) + 8-byte
alignment pad to offset 24 + 16 (timespec) = 40. -/
def sizeof_dateaddedResponse : Nat := 40

/-! ## UTF-8, paths and Python values

`path.encode()` / `bytes.decode()` use strict UTF-8; we embed both
directions over byte lists. -/

/-- UTF-8 encoding of one scalar value (Lean `Char`s are never
surrogates). -/
def utf8EncodeChar (c : Nat) : List Nat :=
  if c < 0x80 then [c]
  else if c < 0x800 then [0xC0 + c / 64, 0x80 + c % 64]
  else if c < 0x10000 then [0xE0 + c / 4096, 0x80 + c / 64 % 64, 0x80 + c % 64]
  else [0xF0 + c / 262144, 0x80 + c / 4096 % 64, 0x80 + c / 64 % 64, 0x80 + c % 64]

/-- `str.encode()`: strict UTF-8 encoding into bytes. -/
def utf8Encode (s : String) : List Nat :=
  (s.data.map fun c => utf8EncodeChar c.toNat).flatten

/-- Strict UTF-8 decoding to code points: rejects stray continuation
bytes, overlong forms, surrogates and values above U+10FFFF, exactly as
Python `bytes.decode()` does. -/
def utf8DecodeAux : List Nat → Option (List Nat)
  | [] => some []
  | b :: rest =>
    if b < 0x80 then
      match utf8DecodeAux rest with
      | some cs => some (b :: cs)
      | none => none
    else if b < 0xC2 then none
    else if b < 0xE0 then
      match rest with
      | b1 :: r =>
        if 0x80 ≤ b1 && b1 < 0xC0 then
          match utf8DecodeAux r with
          | some cs => some (((b - 0xC0) * 64 + (b1 - 0x80)) :: cs)
          | none => none
        else none
      | [] => none
    else if b < 0xF0 then
      match rest with
      | b1 :: b2 :: r =>
        if (0x80 ≤ b1 && b1 < 0xC0) && (0x80 ≤ b2 && b2 < 0xC0)
            && (b ≠ 0xE0 || 0xA0 ≤ b1) && (b ≠ 0xED || b1 < 0xA0) then
          match utf8DecodeAux r with
          | some cs => some (((b - 0xE0) * 4096 + (b1 - 0x80) * 64 + (b2 - 0x80)) :: cs)
          | none => none
        else none
      | _ => none
    else if b < 0xF5 then
      match rest with
      | b1 :: b2 :: b3 :: r =>
        if (0x80 ≤ b1 && b1 < 0xC0) && (0x80 ≤ b2 && b2 < 0xC0)
            && (0x80 ≤ b3 && b3 < 0xC0)
            && (b ≠ 0xF0 || 0x90 ≤ b1) && (b ≠ 0xF4 || b1 < 0x90) then
          match utf8DecodeAux r with
          | some cs =>
              some (((b - 0xF0) * 262144 + (b1 - 0x80) * 4096
                      + (b2 - 0x80) * 64 + (b3 - 0x80)) :: cs)
          | none => none
        else none
      | _ => none
    else none

/-- `bytes.decode()`: strict UTF-8 decode of a byte list to a string;
`none` is Python raising `UnicodeDecodeError`. -/
def utf8Decode (bs : List Nat) : Option String :=
  match utf8DecodeAux bs with
  | some cs => some (String.mk (cs.map Char.ofNat))
  | none => none

/-- A Python `datetime` (timezone-naive, local wall clock), identified by
the local epoch instant it denotes, in microseconds (the full precision a
`datetime` carries). -/
structure PyDateTime where
  epochMicros : Int
  deriving Repr, DecidableEq

/-- `datetime.fromtimestamp(s)` for an integer `s`: the local calendar
timestamp whose epoch value is `s` seconds, microsecond 0. -/
def datetime.fromtimestamp (s : Int) : PyDateTime :=
  { epochMicros := s * 1000000 }

/-- `int(d.timestamp())`: `timestamp()` yields `epochMicros / 10^6`
seconds and Python `int()` truncates toward zero. -/
def PyDateTime.truncTimestamp (d : PyDateTime) : Int :=
  d.epochMicros.tdiv 1000000

/-- The `path : str | bytes` argument of the two operations. -/
inductive PyPath where
  | str (s : String)
  | bytes (bs : List Nat)
  deriving Repr, DecidableEq

/-- `bPath = path if isinstance(path, bytes) else path.encode()`. -/
def PyPath.toBytes : PyPath → List Nat
  | .str s => utf8Encode s
  | .bytes bs => bs

/-- The Python exceptions this program can raise. -/
inductive PyErr where
  | OSError (code : Nat) (path : String)
  | UnicodeDecodeError
  | ValueError (msg : String)
  | AttributeError (msg : String)
  deriving Repr, DecidableEq

/-- `str(e)` as the driver prints it (`print(e, file=sys.stderr)`); the
exact rendering of each exception is stdlib text, not claim-relevant. -/
def pyStrErr : PyErr → String
  | .OSError code path => "[Errno " ++ toString code ++ "] None: " ++ path
  | .UnicodeDecodeError => "utf-8 codec cannot decode byte"
  | .ValueError msg => msg
  | .AttributeError msg => msg

/-- `timestamp : str | int | datetime`, dispatched by `isinstance`. -/
inductive TimestampInput where
  | text (s : String)
  | epoch (n : Int)
  | dt (d : PyDateTime)
  deriving Repr, DecidableEq

instance {ε α : Type} [DecidableEq ε] [DecidableEq α] : DecidableEq (Except ε α) :=
  fun x y =>
    match x, y with
    | .error a, .error b =>
      if h : a = b then .isTrue (by rw [h]) else .isFalse (by simp [h])
    | .error _, .ok _ => .isFalse (by simp)
    | .ok _, .error _ => .isFalse (by simp)
    | .ok a, .ok b =>
      if h : a = b then .isTrue (by rw [h]) else .isFalse (by simp [h])

/-! ## The kernel boundary

`libc.getattrlist` / `libc.setattrlist` are external; they are modelled as
a pair of state-passing functions over an arbitrary kernel state `σ`.
Each returns the C status code, the value `get_errno()` would read after
the call, for `get` the bytes it wrote into the response buffer, and the
next kernel state. -/

structure Kernel (σ : Type) where
  getattrlist : σ → List Nat → attrlist → Nat → Nat → Int × Nat × dateaddedResponse × σ
  setattrlist : σ → List Nat → attrlist → timespec → Nat → Nat → Int × Nat × σ

/-- One native call as issued, recorded for trace reasoning: the path
bytes, the request descriptor, (for set) the payload, the buffer size and
the options word actually passed. -/
inductive NativeCall where
  | getCall (path : List Nat) (req : attrlist) (bufSize : Nat) (options : Nat)
  | setCall (path : List Nat) (req : attrlist) (payload : timespec) (bufSize : Nat)
      (options : Nat)
  deriving Repr, DecidableEq

/-- The request descriptor every call records. -/
def NativeCall.req : NativeCall → attrlist
  | .getCall _ r _ _ => r
  | .setCall _ r _ _ _ => r

/-- The options word every call records. -/
def NativeCall.options : NativeCall → Nat
  | .getCall _ _ _ o => o
  | .setCall _ _ _ _ o => o

/-- `raise_for_errno`: on a nonzero status, read the last-error value and
raise `OSError(e, None, arguments[0].decode())`; the `.decode()` itself
raises `UnicodeDecodeError` when the path bytes are not valid UTF-8. -/
def raise_for_errno (result : Int) (errno : Nat) (pathBytes : List Nat) :
    Except PyErr Unit :=
  if result ≠ 0 then
    match utf8Decode pathBytes with
    | some s => .error (.OSError errno s)
    | none => .error .UnicodeDecodeError
  else .ok ()

/-- The request `getDateAdded` builds:
`attrlist(commonattr = attrgroup_t(ATTR_CMN_RETURNED_ATTRS | ATTR_CMN_ADDEDTIME))`. -/
def getRequest : attrlist :=
  attrlist.init (ATTR_CMN_RETURNED_ATTRS ||| ATTR_CMN_ADDEDTIME) 0 0 0 0

/-- The request `setDateAdded` builds:
`attrlist(commonattr = ATTR_CMN_ADDEDTIME)`. -/
def setRequest : attrlist :=
  attrlist.init ATTR_CMN_ADDEDTIME 0 0 0 0

/-- `getDateAdded(path)`: encode the path, build `getRequest`, issue
`getattrlist` into a fresh `dateaddedResponse` with `FSOPT_NOFOLLOW`;
`errcheck` maps a nonzero status through `raise_for_errno`; then compare
the echoed `returned.commonattr` with the requested mask — on mismatch
return `None`, on match return
`datetime.fromtimestamp(res.dateadded.tv_sec)`.  Also returns the native
calls issued and the kernel state after the call. -/
def getDateAdded {σ : Type} (k : Kernel σ) (st : σ) (path : PyPath) :
    Except PyErr (Option PyDateTime) × List NativeCall × σ :=
  let bPath := path.toBytes
  let req := getRequest
  let out := k.getattrlist st bPath req sizeof_dateaddedResponse FSOPT_NOFOLLOW
  let r := out.1
  let errno := out.2.1
  let res := out.2.2.1
  let st1 := out.2.2.2
  let calls := [NativeCall.getCall bPath req sizeof_dateaddedResponse FSOPT_NOFOLLOW]
  match raise_for_errno r errno bPath with
  | .error e => (.error e, calls, st1)
  | .ok _ =>
    if res.returned.commonattr ≠ req.a.commonattr then (.ok none, calls, st1)
    else (.ok (some (datetime.fromtimestamp res.dateadded.tv_sec)), calls, st1)

/-- The `tv_sec` value `setDateAdded` computes from its `timestamp`
argument before the ctypes wrap: `int(datetime.fromisoformat(s).timestamp())`
for text (`fromisoformat` is the stdlib ISO-8601 reader, passed in as
`parse`; failure is its `ValueError`), `int(t.timestamp())` for a
`datetime`, and the integer itself otherwise. -/
def tsToTvSec (parse : String → Option PyDateTime) :
    TimestampInput → Except PyErr Int
  | .text s =>
    match parse s with
    | some d => .ok d.truncTimestamp
    | none => .error (.ValueError ("Invalid isoformat string: " ++ s))
  | .dt d => .ok d.truncTimestamp
  | .epoch n => .ok n

/-- `setDateAdded(path, timestamp)`: encode the path, start from
`timespec()` (so `tv_nsec` stays 0), fill `tv_sec = c_time_t(...)` from
the timestamp (raising before any native call on malformed text), build
`setRequest`, and issue `setattrlist` with the `timespec` payload and
`FSOPT_NOFOLLOW`; `errcheck` maps a nonzero status through
`raise_for_errno`. -/
def setDateAdded {σ : Type} (k : Kernel σ) (st : σ)
    (parse : String → Option PyDateTime) (path : PyPath) (ts : TimestampInput) :
    Except PyErr Unit × List NativeCall × σ :=
  let bPath := path.toBytes
  match tsToTvSec parse ts with
  | .error e => (.error e, [], st)
  | .ok sec =>
    let iTimestamp : timespec := { timespec.init 0 0 with tv_sec := wrap64 sec }
    let req := setRequest
    let out := k.setattrlist st bPath req iTimestamp sizeof_timespec FSOPT_NOFOLLOW
    let r := out.1
    let errno := out.2.1
    let st1 := out.2.2
    let calls := [NativeCall.setCall bPath req iTimestamp sizeof_timespec FSOPT_NOFOLLOW]
    match raise_for_errno r errno bPath with
    | .error e => (.error e, calls, st1)
    | .ok _ => (.ok (), calls, st1)

/-! ## The `__main__` driver

The CLI loop processes entries one at a time, printing a line per entry
to stdout or stderr; each `try/except` is local to its entry. -/

/-- One line of driver output, tagged with the stream it goes to. -/
inductive OutLine where
  | stdout (s : String)
  | stderr (s : String)
  deriving Repr, DecidableEq

/-- `s.split(',', maxsplit=1)`: the characters before the first occurrence
of `c` and the characters after it. -/
def splitFirst (c : Char) : List Char → List Char × List Char
  | [] => ([], [])
  | x :: xs =>
    if x = c then ([], xs)
    else
      let p := splitFirst c xs
      (x :: p.1, p.2)

/-- `pathWithTimestamp(timestampath)`: raise
`ValueError("Invalid format! ...")` when no comma is present, otherwise
split once on the first comma and parse the left part with
`datetime.fromisoformat`. -/
def pathWithTimestamp (parse : String → Option PyDateTime) (timestampath : String) :
    Except PyErr (PyDateTime × String) :=
  if timestampath.toList.contains ',' then
    let p := splitFirst ',' timestampath.toList
    match parse (String.mk p.1) with
    | some d => .ok (d, String.mk p.2)
    | none => .error (.ValueError ("Invalid isoformat string: " ++ String.mk p.1))
  else
    .error (.ValueError ("Invalid format! Should be \"timestamp,path\", got: "
                           ++ timestampath ++ "."))

/-- One iteration of the set-mode loop: decompose the entry, print
`Setting: <t>,<p>` (before the native call, as the source does), then
`setDateAdded(p, t)`; any exception is caught and printed to stderr, and
only this entry is affected.  `dtStr` renders `str(t)` (stdlib text). -/
def processSetEntry {σ : Type} (k : Kernel σ) (parse : String → Option PyDateTime)
    (dtStr : PyDateTime → String) (st : σ) (entry : String) : List OutLine × σ :=
  match pathWithTimestamp parse entry with
  | .error e => ([.stderr (pyStrErr e)], st)
  | .ok (t, p) =>
    let line := OutLine.stdout ("Setting: " ++ dtStr t ++ "," ++ p)
    let out := setDateAdded k st parse (.str p) (.dt t)
    match out.1 with
    | .ok _ => ([line], out.2.2)
    | .error e => ([line, .stderr (pyStrErr e)], out.2.2)

/-- The set-mode loop over a batch of entries, in order, threading the
kernel state and concatenating each entry's output. -/
def runSetBatch {σ : Type} (k : Kernel σ) (parse : String → Option PyDateTime)
    (dtStr : PyDateTime → String) (st : σ) : List String → List OutLine × σ
  | [] => ([], st)
  | e :: es =>
    let o := processSetEntry k parse dtStr st e
    let os := runSetBatch k parse dtStr o.2 es
    (o.1 ++ os.1, os.2)

/-- `getDateAdded(p).isoformat()`: Python attribute lookup on the result —
when `getDateAdded` returned `None`, `None.isoformat` raises
`AttributeError`; otherwise `isoformat` renders the timestamp (stdlib
text, passed in as `iso`). -/
def optIsoformat (iso : PyDateTime → String) :
    Option PyDateTime → Except PyErr String
  | none => .error (.AttributeError "NoneType object has no attribute isoformat")
  | some d => .ok (iso d)

/-- One iteration of the get-mode loop:
`print("%s,%s" % (getDateAdded(p).isoformat(), p))` inside `try/except`,
with any exception printed to stderr. -/
def processGetEntry {σ : Type} (k : Kernel σ) (iso : PyDateTime → String)
    (st : σ) (p : String) : List OutLine × σ :=
  let out := getDateAdded k st (.str p)
  match out.1 with
  | .error e => ([.stderr (pyStrErr e)], out.2.2)
  | .ok od =>
    match optIsoformat iso od with
    | .error e => ([.stderr (pyStrErr e)], out.2.2)
    | .ok s => ([.stdout (s ++ "," ++ p)], out.2.2)

/-! ## A storing kernel

The round-trip property of the spec is stated "against a kernel model that
stores the written TimeValue and echoes the requested bits"; this is that
model: the state maps path bytes to the stored `timespec`, `setattrlist`
stores the payload, `getattrlist` echoes the requested attribute set and
returns the stored value, both succeeding. -/
def storeKernel : Kernel (List Nat → timespec) :=
  { getattrlist := fun st p req _ _ =>
      (0, 0,
        { length := sizeof_dateaddedResponse
          returned := req.a
          dateadded := st p }, st)
    setattrlist := fun st p _ t _ _ =>
      (0, 0, fun q => if q = p then t else st q) }

/-! ## Helper lemmas and witness kernels -/

/-- A 64-bit in-range value passes through the ctypes wrap unchanged. -/
theorem wrap64_eq_of_range {i : Int} (h1 : -(2 ^ 63) ≤ i) (h2 : i < 2 ^ 63) :
    wrap64 i = i := by
  show (if i % (2 ^ 64 : Int) < 2 ^ 63 then i % (2 ^ 64 : Int)
        else i % (2 ^ 64 : Int) - 2 ^ 64) = i
  split <;> omega

/-- `getDateAdded` always issues exactly one `getattrlist` call, with the
request it built, the response buffer size and `FSOPT_NOFOLLOW`. -/
theorem getDateAdded_calls {σ : Type} (k : Kernel σ) (st : σ) (p : PyPath) :
    (getDateAdded k st p).2.1
      = [.getCall p.toBytes getRequest sizeof_dateaddedResponse FSOPT_NOFOLLOW] := by
  simp only [getDateAdded]
  split
  · rfl
  · split <;> rfl

/-- When the timestamp converts, `setDateAdded` issues exactly one
`setattrlist` call, with the request it built, the `timespec` payload, its
size, and `FSOPT_NOFOLLOW`. -/
theorem setDateAdded_calls {σ : Type} (k : Kernel σ) (st : σ)
    (parse : String → Option PyDateTime) (p : PyPath) (ts : TimestampInput)
    (sec : Int) (h : tsToTvSec parse ts = .ok sec) :
    (setDateAdded k st parse p ts).2.1
      = [.setCall p.toBytes setRequest { timespec.init 0 0 with tv_sec := wrap64 sec }
          sizeof_timespec FSOPT_NOFOLLOW] := by
  simp only [setDateAdded, h]
  split <;> rfl

/-- Witness kernel: both calls succeed, the get response echoes the
requested attribute set and carries `timespec ⟨100, 7⟩`. -/
def okK : Kernel Unit :=
  { getattrlist := fun _ _ req _ _ =>
      (0, 0, { length := sizeof_dateaddedResponse, returned := req.a
               dateadded := { tv_sec := 100, tv_nsec := 7 } }, ())
    setattrlist := fun _ _ _ _ _ _ => (0, 0, ()) }

/-- Witness kernel: like `okK` but the stored nanoseconds differ. -/
def okK2 : Kernel Unit :=
  { getattrlist := fun _ _ req _ _ =>
      (0, 0, { length := sizeof_dateaddedResponse, returned := req.a
               dateadded := { tv_sec := 100, tv_nsec := 99 } }, ())
    setattrlist := fun _ _ _ _ _ _ => (0, 0, ()) }

/-- Witness kernel: the get call succeeds but echoes an empty attribute
set (the kernel did not honor the request). -/
def mismatchK : Kernel Unit :=
  { getattrlist := fun _ _ _ _ _ =>
      (0, 0, { length := 4, returned := { commonattr := 0, volattr := 0, dirattr := 0
                                          fileattr := 0, forkattr := 0 }
               dateadded := { tv_sec := 0, tv_nsec := 0 } }, ())
    setattrlist := fun _ _ _ _ _ _ => (0, 0, ()) }

/-- Witness kernel: both calls fail with status −1 and last-error 13. -/
def failK : Kernel Unit :=
  { getattrlist := fun _ _ _ _ _ =>
      (-1, 13, { length := 0, returned := { commonattr := 0, volattr := 0, dirattr := 0
                                            fileattr := 0, forkattr := 0 }
                 dateadded := { tv_sec := 0, tv_nsec := 0 } }, ())
    setattrlist := fun _ _ _ _ _ _ => (-1, 13, ()) }

/-! ## Claims -/

/-- C1: for every path, when the get call succeeds (status 0) and the
response's echoed common-attributes field differs from the requested mask,
`getDateAdded` returns "no value" (`none`) without raising; when it
equals the request, `getDateAdded` returns the local calendar timestamp
built from the seconds field of the `timespec` that immediately follows
the echoed attribute set in the response. -/
theorem getDateAdded_echo_decides_result {σ : Type} (k : Kernel σ) (st : σ)
    (path : PyPath) (e : Nat) (res : dateaddedResponse) (st1 : σ)
    (hcall : k.getattrlist st path.toBytes getRequest sizeof_dateaddedResponse
      FSOPT_NOFOLLOW = (0, e, res, st1)) :
    (res.returned.commonattr ≠ getRequest.a.commonattr →
        (getDateAdded k st path).1 = .ok none) ∧
    (res.returned.commonattr = getRequest.a.commonattr →
        (getDateAdded k st path).1
          = .ok (some (datetime.fromtimestamp res.dateadded.tv_sec))) := by
  constructor <;> intro h <;>
    simp [getDateAdded, hcall, raise_for_errno, h]

/-- C1 witness: a concrete mismatching kernel yields `none`; a concrete
echoing kernel yields the timestamp of the response's seconds field. -/
theorem getDateAdded_echo_decides_result_w :
    (getDateAdded mismatchK () (.str "f")).1 = .ok none ∧
    (getDateAdded okK () (.str "f")).1
      = .ok (some (datetime.fromtimestamp 100)) :=
  ⟨(getDateAdded_echo_decides_result mismatchK () (.str "f") 0 _ () rfl).1
      (by decide),
   (getDateAdded_echo_decides_result okK () (.str "f") 0 _ () rfl).2 (by decide)⟩

/-- C2: both request descriptors have `bitmapcount = ATTR_BIT_MAP_COUNT`
(the fixed format-version constant 5), `reserved = 0` and zero
volume/directory/file/fork masks; the common-attributes field is
added-time OR the returned-attributes sentinel for `getDateAdded`, and
added-time alone for `setDateAdded`; and these are exactly the
descriptors the issued native calls carry. -/
theorem request_descriptors_shape :
    (getRequest.bitmapcount = ATTR_BIT_MAP_COUNT ∧ getRequest.reserved = 0 ∧
     getRequest.a.commonattr = (ATTR_CMN_ADDEDTIME ||| ATTR_CMN_RETURNED_ATTRS) ∧
     getRequest.a.volattr = 0 ∧ getRequest.a.dirattr = 0 ∧
     getRequest.a.fileattr = 0 ∧ getRequest.a.forkattr = 0) ∧
    (setRequest.bitmapcount = ATTR_BIT_MAP_COUNT ∧ setRequest.reserved = 0 ∧
     setRequest.a.commonattr = ATTR_CMN_ADDEDTIME ∧
     setRequest.a.volattr = 0 ∧ setRequest.a.dirattr = 0 ∧
     setRequest.a.fileattr = 0 ∧ setRequest.a.forkattr = 0) ∧
    (∀ (σ : Type) (k : Kernel σ) (st : σ) (p : PyPath),
        ((getDateAdded k st p).2.1).map NativeCall.req = [getRequest]) ∧
    (∀ (σ : Type) (k : Kernel σ) (st : σ) (parse : String → Option PyDateTime)
        (p : PyPath) (ts : TimestampInput) (sec : Int),
        tsToTvSec parse ts = .ok sec →
        ((setDateAdded k st parse p ts).2.1).map NativeCall.req = [setRequest]) := by
  refine ⟨by decide, by decide, ?_, ?_⟩
  · intro σ k st p
    rw [getDateAdded_calls]
    rfl
  · intro σ k st parse p ts sec h
    rw [setDateAdded_calls k st parse p ts sec h]
    rfl

/-- C2 witness: the descriptor facts hold, and on a concrete kernel and
inputs the issued calls carry exactly `getRequest` / `setRequest`. -/
theorem request_descriptors_shape_w :
    ((getDateAdded okK () (.str "f")).2.1).map NativeCall.req = [getRequest] ∧
    ((setDateAdded okK () (fun _ => none) (.str "f") (.epoch 5)).2.1).map
        NativeCall.req = [setRequest] :=
  ⟨request_descriptors_shape.2.2.1 Unit okK () (.str "f"),
   request_descriptors_shape.2.2.2 Unit okK () (fun _ => none) (.str "f")
     (.epoch 5) 5 rfl⟩

/-- C3 counterexample: the claim demands, for every path, an `OSError`
carrying the error code and the input path on native failure — but at the
concrete byte path `[0xFF]` (not valid UTF-8) with a failing kernel
(status −1, last-error 13), `raise_for_errno` decodes the path bytes and
`getDateAdded` raises `UnicodeDecodeError` instead of any `OSError`. -/
theorem error_mapping_oserror_cex :
    (getDateAdded failK () (.bytes [255])).1
      = .error .UnicodeDecodeError := by decide

/-- C3 (amended): for every path whose byte form is valid UTF-8 (decoding
to `s`), when the native get or set call returns a nonzero status with
last-error `E`, the operation raises an `OSError` carrying `E` and `s`;
when the call returns zero, no error is raised. -/
theorem error_mapping_oserror {σ : Type} (k : Kernel σ) (st st2 : σ)
    (path : PyPath) (s : String) (r r2 : Int) (e e2 : Nat)
    (res : dateaddedResponse) (st1 st3 : σ)
    (parse : String → Option PyDateTime) (ts : TimestampInput) (sec : Int)
    (hdec : utf8Decode path.toBytes = some s)
    (hget : k.getattrlist st path.toBytes getRequest sizeof_dateaddedResponse
      FSOPT_NOFOLLOW = (r, e, res, st1))
    (hsec : tsToTvSec parse ts = .ok sec)
    (hset : k.setattrlist st2 path.toBytes setRequest
      { timespec.init 0 0 with tv_sec := wrap64 sec } sizeof_timespec
      FSOPT_NOFOLLOW = (r2, e2, st3)) :
    ((r ≠ 0 → (getDateAdded k st path).1 = .error (.OSError e s)) ∧
     (r = 0 → ∀ err, (getDateAdded k st path).1 ≠ .error err)) ∧
    ((r2 ≠ 0 → (setDateAdded k st2 parse path ts).1 = .error (.OSError e2 s)) ∧
     (r2 = 0 → (setDateAdded k st2 parse path ts).1 = .ok ())) := by
  refine ⟨⟨fun hr => ?_, fun hr err => ?_⟩, fun hr2 => ?_, fun hr2 => ?_⟩
  · simp [getDateAdded, hget, raise_for_errno, hr, hdec]
  · subst hr
    have hro : raise_for_errno 0 e path.toBytes = .ok () := by
      simp [raise_for_errno]
    simp only [getDateAdded, hget, hro]
    split <;> simp
  · simp [setDateAdded, hsec, hset, raise_for_errno, hr2, hdec]
  · subst hr2
    simp [setDateAdded, hsec, hset, raise_for_errno]

/-- C3 witness: on the valid path `"f"`, a failing kernel produces
`OSError 13 "f"` from both operations, and a succeeding kernel raises
nothing. -/
theorem error_mapping_oserror_w :
    (getDateAdded failK () (.str "f")).1 = .error (.OSError 13 "f") ∧
    (setDateAdded failK () (fun _ => none) (.str "f") (.epoch 5)).1
      = .error (.OSError 13 "f") ∧
    (setDateAdded okK () (fun _ => none) (.str "f") (.epoch 5)).1 = .ok () :=
  ⟨(error_mapping_oserror failK () () (.str "f") "f" (-1) (-1) 13 13 _ () ()
      (fun _ => none) (.epoch 5) 5 (by decide) rfl rfl rfl).1.1 (by decide),
   (error_mapping_oserror failK () () (.str "f") "f" (-1) (-1) 13 13 _ () ()
      (fun _ => none) (.epoch 5) 5 (by decide) rfl rfl rfl).2.1 (by decide),
   (error_mapping_oserror okK () () (.str "f") "f" 0 0 0 0 _ () ()
      (fun _ => none) (.epoch 5) 5 (by decide) rfl rfl rfl).2.2 rfl⟩

/-- C4: the timestamp conversion truncates fractional seconds toward zero
(text via the ISO parser, `datetime` via `int(t.timestamp())`, integers
passed through); for every successfully converted, 64-bit-representable
value the single `setattrlist` payload is `⟨sec, 0⟩` — nanoseconds 0 —
and `getDateAdded`'s result depends on the response's `timespec` only
through its seconds field (two responses agreeing on the echoed set and
`tv_sec` give equal results). -/
theorem set_timespec_nsec_zero_sec_trunc :
    (∀ (parse : String → Option PyDateTime) (d : PyDateTime),
        tsToTvSec parse (.dt d) = .ok (d.epochMicros.tdiv 1000000)) ∧
    (∀ (parse : String → Option PyDateTime) (n : Int),
        tsToTvSec parse (.epoch n) = .ok n) ∧
    (∀ (parse : String → Option PyDateTime) (txt : String) (d : PyDateTime),
        parse txt = some d →
        tsToTvSec parse (.text txt) = .ok (d.epochMicros.tdiv 1000000)) ∧
    (∀ (σ : Type) (k : Kernel σ) (st : σ) (parse : String → Option PyDateTime)
        (p : PyPath) (ts : TimestampInput) (sec : Int),
        tsToTvSec parse ts = .ok sec → -(2 ^ 63) ≤ sec → sec < 2 ^ 63 →
        (setDateAdded k st parse p ts).2.1
          = [.setCall p.toBytes setRequest { tv_sec := sec, tv_nsec := 0 }
              sizeof_timespec FSOPT_NOFOLLOW]) ∧
    (∀ (σ σ2 : Type) (k : Kernel σ) (k2 : Kernel σ2) (st : σ) (st2 : σ2)
        (p : PyPath) (r : Int) (e : Nat) (res res2 : dateaddedResponse)
        (st1 : σ) (st3 : σ2),
        k.getattrlist st p.toBytes getRequest sizeof_dateaddedResponse
          FSOPT_NOFOLLOW = (r, e, res, st1) →
        k2.getattrlist st2 p.toBytes getRequest sizeof_dateaddedResponse
          FSOPT_NOFOLLOW = (r, e, res2, st3) →
        res.returned = res2.returned →
        res.dateadded.tv_sec = res2.dateadded.tv_sec →
        (getDateAdded k st p).1 = (getDateAdded k2 st2 p).1) := by
  refine ⟨fun parse d => rfl, fun parse n => rfl, ?_, ?_, ?_⟩
  · intro parse txt d h
    simp [tsToTvSec, h, PyDateTime.truncTimestamp]
  · intro σ k st parse p ts sec h h1 h2
    rw [setDateAdded_calls k st parse p ts sec h]
    have hw : wrap64 sec = sec := wrap64_eq_of_range h1 h2
    simp [timespec.init, hw]
    decide
  · intro σ σ2 k k2 st st2 p r e res res2 st1 st3 hg hg2 hret hsec
    simp only [getDateAdded, hg, hg2, hret, hsec]
    cases hre : raise_for_errno r e p.toBytes
    · rfl
    · dsimp only
      split <;> rfl

/-- C4 witness: a concrete set call's payload is `⟨100, 0⟩`, and two
concrete kernels differing only in the response nanoseconds produce the
same get result. -/
theorem set_timespec_nsec_zero_sec_trunc_w :
    (setDateAdded okK () (fun _ => none) (.str "f") (.epoch 100)).2.1
      = [.setCall (PyPath.str "f").toBytes setRequest
          { tv_sec := 100, tv_nsec := 0 } sizeof_timespec FSOPT_NOFOLLOW] ∧
    (getDateAdded okK () (.str "f")).1 = (getDateAdded okK2 () (.str "f")).1 :=
  ⟨set_timespec_nsec_zero_sec_trunc.2.2.2.1 Unit okK () (fun _ => none)
      (.str "f") (.epoch 100) 100 rfl (by decide) (by decide),
   set_timespec_nsec_zero_sec_trunc.2.2.2.2 Unit Unit okK okK2 () () (.str "f")
      0 0 _ _ () () rfl rfl rfl rfl⟩

/-- C5: against the storing/echoing kernel model, for every path and
every timestamp with zero sub-second component (epoch microseconds a
whole multiple of 10^6, seconds representable in 64 bits),
`setDateAdded` succeeds and a following `getDateAdded` returns exactly
that timestamp. -/
theorem set_get_round_trip (store : List Nat → timespec)
    (parse : String → Option PyDateTime) (p : PyPath) (d : PyDateTime) (s : Int)
    (hsub : d.epochMicros = s * 1000000) (h1 : -(2 ^ 63) ≤ s) (h2 : s < 2 ^ 63) :
    (setDateAdded storeKernel store parse p (.dt d)).1 = .ok () ∧
    (getDateAdded storeKernel
        (setDateAdded storeKernel store parse p (.dt d)).2.2 p).1
      = .ok (some d) := by
  have hcancel : (s * 1000000).tdiv 1000000 = s := by
    rw [Int.mul_tdiv_cancel]
    norm_num
  have hts : tsToTvSec parse (.dt d) = .ok s := by
    simp [tsToTvSec, PyDateTime.truncTimestamp, hsub, hcancel]
  have hw : wrap64 s = s := wrap64_eq_of_range h1 h2
  constructor
  · simp [setDateAdded, hts, storeKernel, raise_for_errno]
  · simp [setDateAdded, getDateAdded, hts, storeKernel, raise_for_errno,
      timespec.init, hw, datetime.fromtimestamp, ← hsub]

/-- C5 witness: storing 100 seconds after the epoch on `"f"` and reading
it back yields exactly that timestamp. -/
theorem set_get_round_trip_w :
    (setDateAdded storeKernel (fun _ => timespec.init 0 0) (fun _ => none)
        (.str "f") (.dt ⟨100000000⟩)).1 = .ok () ∧
    (getDateAdded storeKernel
        (setDateAdded storeKernel (fun _ => timespec.init 0 0) (fun _ => none)
          (.str "f") (.dt ⟨100000000⟩)).2.2 (.str "f")).1
      = .ok (some ⟨100000000⟩) :=
  set_get_round_trip (fun _ => timespec.init 0 0) (fun _ => none) (.str "f")
    ⟨100000000⟩ 100 (by decide) (by decide) (by decide)

/-- C6: for every kernel, path and timestamp text the ISO-8601 reader
rejects, `setDateAdded` raises the parse error, issues zero native calls,
and leaves the kernel state untouched. -/
theorem malformed_text_no_native_call {σ : Type} (k : Kernel σ) (st : σ)
    (parse : String → Option PyDateTime) (p : PyPath) (txt : String)
    (hp : parse txt = none) :
    setDateAdded k st parse p (.text txt)
      = (.error (.ValueError ("Invalid isoformat string: " ++ txt)), [], st) := by
  simp [setDateAdded, tsToTvSec, hp]

/-- C6 witness: `"not-a-date"` with a rejecting reader produces the parse
error, an empty call trace, and the unchanged state. -/
theorem malformed_text_no_native_call_w :
    setDateAdded okK () (fun _ => none) (.str "f") (.text "not-a-date")
      = (.error (.ValueError ("Invalid isoformat string: " ++ "not-a-date")),
          [], ()) :=
  malformed_text_no_native_call okK () (fun _ => none) (.str "f") "not-a-date" rfl

/-- C7: every native call either operation issues — for every kernel,
state, path and timestamp input — carries `FSOPT_NOFOLLOW` as its options
word. -/
theorem all_calls_nofollow :
    (∀ (σ : Type) (k : Kernel σ) (st : σ) (p : PyPath) (c : NativeCall),
        c ∈ (getDateAdded k st p).2.1 → c.options = FSOPT_NOFOLLOW) ∧
    (∀ (σ : Type) (k : Kernel σ) (st : σ) (parse : String → Option PyDateTime)
        (p : PyPath) (ts : TimestampInput) (c : NativeCall),
        c ∈ (setDateAdded k st parse p ts).2.1 → c.options = FSOPT_NOFOLLOW) := by
  constructor
  · intro σ k st p c hc
    rw [getDateAdded_calls] at hc
    simp at hc
    subst hc
    rfl
  · intro σ k st parse p ts c hc
    cases hts : tsToTvSec parse ts with
    | error e => simp [setDateAdded, hts] at hc
    | ok sec =>
      rw [setDateAdded_calls k st parse p ts sec hts] at hc
      simp at hc
      subst hc
      rfl

/-- C7 witness: the one call a concrete `getDateAdded` issues carries
`FSOPT_NOFOLLOW`. -/
theorem all_calls_nofollow_w :
    (NativeCall.getCall (PyPath.str "f").toBytes getRequest
        sizeof_dateaddedResponse FSOPT_NOFOLLOW).options = FSOPT_NOFOLLOW :=
  all_calls_nofollow.1 Unit okK () (.str "f")
    (.getCall (PyPath.str "f").toBytes getRequest sizeof_dateaddedResponse
      FSOPT_NOFOLLOW)
    (by rw [getDateAdded_calls]; exact List.mem_singleton.mpr rfl)

/-- A set-mode entry with no comma yields exactly one stderr line carrying
the malformed-entry message and leaves the kernel state untouched. -/
theorem processSetEntry_no_comma {σ : Type} (k : Kernel σ)
    (parse : String → Option PyDateTime) (dtStr : PyDateTime → String) (st : σ)
    (e : String) (he : e.toList.contains ',' = false) :
    processSetEntry k parse dtStr st e
      = ([.stderr ("Invalid format! Should be \"timestamp,path\", got: "
            ++ e ++ ".")], st) := by
  have he2 : ',' ∉ e.data := by simpa using he
  simp [processSetEntry, pathWithTimestamp, he2, pyStrErr]

/-- The set-mode loop distributes over list append, threading the state. -/
theorem runSetBatch_append {σ : Type} (k : Kernel σ)
    (parse : String → Option PyDateTime) (dtStr : PyDateTime → String) (st : σ)
    (a b : List String) :
    runSetBatch k parse dtStr st (a ++ b)
      = ((runSetBatch k parse dtStr st a).1
          ++ (runSetBatch k parse dtStr (runSetBatch k parse dtStr st a).2 b).1,
         (runSetBatch k parse dtStr (runSetBatch k parse dtStr st a).2 b).2) := by
  induction a generalizing st with
  | nil => simp [runSetBatch]
  | cons x xs ih => simp [runSetBatch, ih]

/-- C8: a set-mode batch entry with no comma separator produces exactly
one stderr line with the malformed-entry `ValueError` message, and every
other entry of the batch is processed in order exactly as it would be
with the bad entry absent (same outputs, same final kernel state). -/
theorem batch_bad_entry_isolated {σ : Type} (k : Kernel σ)
    (parse : String → Option PyDateTime) (dtStr : PyDateTime → String) (st : σ)
    (e : String) (l1 l2 : List String) (he : e.toList.contains ',' = false) :
    runSetBatch k parse dtStr st (l1 ++ e :: l2)
      = ((runSetBatch k parse dtStr st l1).1
          ++ .stderr ("Invalid format! Should be \"timestamp,path\", got: "
              ++ e ++ ".")
            :: (runSetBatch k parse dtStr (runSetBatch k parse dtStr st l1).2
                  l2).1,
         (runSetBatch k parse dtStr st (l1 ++ l2)).2) := by
  have hstep : ∀ st2 : σ, runSetBatch k parse dtStr st2 (e :: l2)
      = (.stderr ("Invalid format! Should be \"timestamp,path\", got: "
            ++ e ++ ".") :: (runSetBatch k parse dtStr st2 l2).1,
         (runSetBatch k parse dtStr st2 l2).2) := by
    intro st2
    simp [runSetBatch, processSetEntry_no_comma k parse dtStr st2 e he]
  rw [runSetBatch_append, hstep, runSetBatch_append]

/-- C8 witness: in a concrete three-entry batch whose middle entry lacks
a comma, the middle entry contributes one stderr line and both neighbors
are still processed. -/
theorem batch_bad_entry_isolated_w :
    runSetBatch okK (fun _ => some ⟨0⟩) (fun _ => "T") ()
        (["e,a"] ++ "nocomma" :: ["e,b"])
      = ([.stdout "Setting: T,a",
          .stderr ("Invalid format! Should be \"timestamp,path\", got: "
            ++ "nocomma" ++ "."),
          .stdout "Setting: T,b"], ()) := by
  rw [batch_bad_entry_isolated okK (fun _ => some ⟨0⟩) (fun _ => "T") ()
    "nocomma" ["e,a"] ["e,b"] (by decide)]
  decide

/-- C9: when the path argument is a byte string that strict UTF-8
decoding rejects and the native call fails with a nonzero status, the
error-mapping decode of the path raises `UnicodeDecodeError` instead of
the typed `OSError`, for both operations. -/
theorem undecodable_path_unicode_error {σ : Type} (k : Kernel σ) (st st2 : σ)
    (bs : List Nat) (r r2 : Int) (e e2 : Nat) (res : dateaddedResponse)
    (st1 st3 : σ) (parse : String → Option PyDateTime) (ts : TimestampInput)
    (sec : Int)
    (hdec : utf8Decode bs = none)
    (hget : k.getattrlist st bs getRequest sizeof_dateaddedResponse
      FSOPT_NOFOLLOW = (r, e, res, st1))
    (hr : r ≠ 0)
    (hsec : tsToTvSec parse ts = .ok sec)
    (hset : k.setattrlist st2 bs setRequest
      { timespec.init 0 0 with tv_sec := wrap64 sec } sizeof_timespec
      FSOPT_NOFOLLOW = (r2, e2, st3))
    (hr2 : r2 ≠ 0) :
    (getDateAdded k st (.bytes bs)).1 = .error .UnicodeDecodeError ∧
    (setDateAdded k st2 parse (.bytes bs) ts).1 = .error .UnicodeDecodeError := by
  constructor
  · simp [getDateAdded, PyPath.toBytes, hget, raise_for_errno, hr, hdec]
  · simp [setDateAdded, PyPath.toBytes, hsec, hset, raise_for_errno, hr2, hdec]

/-- C9 witness: on the byte path `[0xFF]` with a failing kernel, both
operations raise `UnicodeDecodeError`. -/
theorem undecodable_path_unicode_error_w :
    (getDateAdded failK () (.bytes [255])).1 = .error .UnicodeDecodeError ∧
    (setDateAdded failK () (fun _ => none) (.bytes [255]) (.epoch 5)).1
      = .error .UnicodeDecodeError :=
  undecodable_path_unicode_error failK () () [255] (-1) (-1) 13 13 _ () ()
    (fun _ => none) (.epoch 5) 5 (by decide) rfl (by decide) rfl rfl (by decide)

/-- C10: in the CLI get loop, when the get call succeeds but the echoed
mask mismatches (so `getDateAdded` returns `None`),
`getDateAdded(p).isoformat()` raises `AttributeError`, and the entry is
reported as one line on the error stream, with no timestamp line on
stdout. -/
theorem get_loop_none_to_stderr {σ : Type} (k : Kernel σ) (st : σ) (p : String)
    (e : Nat) (res : dateaddedResponse) (st1 : σ) (iso : PyDateTime → String)
    (hget : k.getattrlist st (utf8Encode p) getRequest sizeof_dateaddedResponse
      FSOPT_NOFOLLOW = (0, e, res, st1))
    (hmm : res.returned.commonattr ≠ getRequest.a.commonattr) :
    processGetEntry k iso st p
      = ([.stderr "NoneType object has no attribute isoformat"], st1) := by
  simp [processGetEntry, getDateAdded, PyPath.toBytes, hget, raise_for_errno,
    hmm, optIsoformat, pyStrErr]

/-- C10 witness: a concrete mismatching kernel makes the get loop emit
exactly one stderr line for the path. -/
theorem get_loop_none_to_stderr_w :
    processGetEntry mismatchK (fun _ => "T") () "f"
      = ([.stderr "NoneType object has no attribute isoformat"], ()) :=
  get_loop_none_to_stderr mismatchK () "f" 0 _ () (fun _ => "T") rfl (by decide)

end MacosDateAdded
